import Mathlib

/-!
Verification of the sizzle_starter_docs repository: a shallow embedding of
its CI workflow, its static-site configuration files (current and earlier
versions), and its content corpus, with theorems settling the specified
properties of the navigation tree, the head tags, the deploy surface and
the build pipeline.
-/

namespace SizzleDocs

/- ===== CI workflow (the GitHub Actions file) ===== -/

/-- The events that trigger the workflow: `on: [push]`. -/
def workflowTriggers : List String := ["push"]

/-- The ordered steps of the single `deploy` job, by name or uses-ref. -/
def jobSteps : List String :=
  ["actions/checkout@v4", "Get Dependencies", "Build Astro site", "Deploy"]

/-- Sequential step execution: each step runs only if every earlier step
succeeded; the run stops at the first failing step; the second component is
the job's overall success. `o` gives each step's exit status. -/
def runSteps : List String → (String → Bool) → List String × Bool
  | [], _ => ([], true)
  | s :: rest, o =>
    if o s then
      let r := runSteps rest o
      (s :: r.1, r.2)
    else ([s], false)

/- ===== Deploy step (cloudflare/wrangler-action@v3) ===== -/

/-- The `with:` inputs of the wrangler deploy step. -/
structure WranglerDeployStep where
  apiToken : String
  accountId : String
  command : String
  gitHubToken : Option String
deriving DecidableEq

/-- The deploy step as configured in the workflow file. -/
def deployStep : WranglerDeployStep :=
  ⟨"secrets.CLOUDFLARE_API_TOKEN", "secrets.CLOUDFLARE_ACCOUNT_ID",
   "pages deploy dist --project-name=sizzle-starter-docs",
   some "secrets.GITHUB_TOKEN"⟩

/-- The static output directory the deploy command publishes. -/
def deployOutputDir : String := "dist"

/-- The project identifier the deploy command targets. -/
def deployProjectName : String := "sizzle-starter-docs"

/-- Modelled from the spec: the hosting action's deployment-record behaviour
is not code of this repository; per the spec it "optionally also registers a
deployment record if a repository token is supplied". -/
def registersDeployment (s : WranglerDeployStep) : Bool :=
  s.gitHubToken.isSome

/- ===== Navigation tree ===== -/

/-- A sidebar entry of the starlight config: a page link, an autogenerated
group (children derived from a directory at build time), or an explicit
group of entries. -/
inductive NavNode where
  | link (label target : String)
  | autogen (label directory : String)
  | group (label : String) (collapsed : Bool) (items : List NavNode)

/-- The label of a sidebar entry. -/
def navLabel : NavNode → String
  | .link l _ => l
  | .autogen l _ => l
  | .group l _ _ => l

mutual

/-- All (label, target) link pairs declared explicitly in a node. -/
def linksOfNode : NavNode → List (String × String)
  | .link l t => [(l, t)]
  | .autogen _ _ => []
  | .group _ _ items => linksOfList items

/-- All (label, target) link pairs declared explicitly in a sibling list. -/
def linksOfList : List NavNode → List (String × String)
  | [] => []
  | n :: rest => linksOfNode n ++ linksOfList rest

end

/-- Whether a list of strings has a repeated element. -/
def hasDupStr : List String → Bool
  | [] => false
  | x :: xs => xs.contains x || hasDupStr xs

mutual

/-- Labels are pairwise distinct in every sibling list inside the node. -/
def nodeLabelsUnique : NavNode → Bool
  | .link _ _ => true
  | .autogen _ _ => true
  | .group _ _ items => !hasDupStr (items.map navLabel) && siblingsUnique items

/-- Every member node satisfies `nodeLabelsUnique`. -/
def siblingsUnique : List NavNode → Bool
  | [] => true
  | n :: rest => nodeLabelsUnique n && siblingsUnique rest

end

/-- Labels are pairwise distinct in the top-level list and in every nested
sibling list. -/
def treeLabelsUnique (l : List NavNode) : Bool :=
  !hasDupStr (l.map navLabel) && siblingsUnique l

/- ===== Site configuration ===== -/

/-- One injected document-head tag (`tag` with `attrs.property`,
`attrs.content`). -/
structure HeadTag where
  tag : String
  property : String
  content : String
deriving DecidableEq

/-- The site base URL, shared by both config versions. -/
def site : String := "https://sizzle.lazebny.io/"

/-- The fields of a starlight site configuration that the two config files
in this repository set. -/
structure SiteConfig where
  title : String
  socialGithub : String
  favicon : String
  logoLight : String
  logoDark : String
  logoReplacesTitle : Bool
  adapterPath : String
  devImageService : Option String
  hasMarkdoc : Bool
  sidebar : List NavNode
  head : List HeadTag

/-- The sidebar declared in the current `astro.config.mjs`. -/
def currentSidebar : List NavNode :=
  [ .group "Start Here" false
      [ .link "Introduction" "/introduction",
        .link "Getting Started" "/getting-started" ],
    .autogen "Essentials" "essentials",
    .group "Storage" false
      [ .autogen "Local Database" "storage/database" ],
    .group "Roadmap" true
      [ .link "Roadmap" "/roadmap" ] ]

/-- The sidebar declared in the earlier config version. -/
def earlierSidebar : List NavNode :=
  [ .group "Start Here" false
      [ .link "Introduction" "/introduction",
        .link "Getting Started" "/getting-started" ],
    .autogen "Essentials" "essentials" ]

/-- The head tags injected by both config versions. -/
def ogHead : List HeadTag :=
  [ ⟨"meta", "og:image", site ++ "og.jpg?v=1"⟩,
    ⟨"meta", "twitter:image", site ++ "og.jpg?v=1"⟩ ]

/-- The configuration defined by the current `astro.config.mjs`. -/
def currentConfig : SiteConfig :=
  ⟨"Sizzle Starter", "https://github.com/hawkkiller/sizzle_starter",
   "/favicon.svg", "./src/assets/logo-light.svg", "./src/assets/logo-dark.svg",
   true, "astrojs/vercel/static", none, false, currentSidebar, ogHead⟩

/-- The configuration defined by the earlier config file version. -/
def earlierConfig : SiteConfig :=
  ⟨"Sizzle Starter", "https://github.com/hawkkiller/sizzle_starter",
   "/favicon.svg", "./src/assets/light-logo.svg", "./src/assets/dark-logo.svg",
   false, "astrojs/vercel/serverless", some "squoosh", true, earlierSidebar,
   ogHead⟩

/-- The single configuration active for a build: the latest definition. -/
def activeConfig : SiteConfig := currentConfig

/- ===== Content corpus ===== -/

/-- A fatal configuration error. -/
inductive ConfigError where
  | danglingLink (target : String)
deriving DecidableEq

/-- Modelled from the spec: the framework's build-time navigation check (not
code of this repository) — "every Link's target must resolve to an existing
Document path; a dangling link is a build failure". It fails on the first
link whose target is not a document path, else returns the tree unchanged. -/
def validateSidebar (docPaths : List String) (tree : List NavNode) :
    Except ConfigError (List NavNode) :=
  match (linksOfList tree).find? (fun p => decide (p.2 ∉ docPaths)) with
  | some p => .error (.danglingLink p.2)
  | none => .ok tree

/- ===== Theorems ===== -/

/-- C4: the CI pipeline is triggered by every push and by no other event;
push is the sole trigger condition of the workflow. -/
theorem ci_trigger_push_only : workflowTriggers = ["push"] := rfl

/-- C9: in the configured navigation tree, the labels of the immediate
children of every Section are pairwise distinct, including in the top-level
list of the sidebar. -/
theorem sidebar_sibling_labels_unique : treeLabelsUnique currentSidebar = true := by
  decide

/-- C10: the composed site configuration injects exactly two document-head
tags, first an og:image meta tag and then a twitter:image meta tag, and both
contents equal the site base URL concatenated with "og.jpg?v=1". -/
theorem head_tags_og_then_twitter :
    currentConfig.head.length = 2 ∧
    currentConfig.head =
      [ ⟨"meta", "og:image", site ++ "og.jpg?v=1"⟩,
        ⟨"meta", "twitter:image", site ++ "og.jpg?v=1"⟩ ] ∧
    currentConfig.head.map HeadTag.content =
      [site ++ "og.jpg?v=1", site ++ "og.jpg?v=1"] :=
  ⟨rfl, rfl, rfl⟩

/-- C8: exactly one configuration object is active per build, the later
definition; it fully replaces the earlier version's fields (logo paths,
adapter, dev image service, markdoc integration, sidebar) with no
field-level merging across versions. -/
theorem single_active_config_replaces_earlier :
    activeConfig = currentConfig ∧
    activeConfig.logoLight = "./src/assets/logo-light.svg" ∧
    earlierConfig.logoLight = "./src/assets/light-logo.svg" ∧
    activeConfig.logoLight ≠ earlierConfig.logoLight ∧
    activeConfig.devImageService = none ∧
    earlierConfig.devImageService = some "squoosh" ∧
    activeConfig.hasMarkdoc = false ∧
    earlierConfig.hasMarkdoc = true ∧
    activeConfig.adapterPath ≠ earlierConfig.adapterPath ∧
    activeConfig.sidebar.length = 4 ∧
    earlierConfig.sidebar.length = 2 :=
  ⟨rfl, rfl, rfl, by decide, rfl, rfl, rfl, rfl, by decide, rfl, rfl⟩

/-- C2 counterexample: the navigation tree declared by the configuration
titled "Sizzle Starter" contains no link labelled "Get Started" with target
"/get-started", so the count of such sidebar entries is not one. -/
theorem no_get_started_entry :
    (linksOfList currentSidebar).count ("Get Started", "/get-started") = 0 ∧
    ¬ ((linksOfList currentSidebar).count ("Get Started", "/get-started") = 1) := by
  decide

/-- C2 amended: for the site configuration with title "Sizzle Starter" and
social github link "https://github.com/hawkkiller/sizzle_starter", the
declared navigation tree contains exactly one link labelled
"Getting Started" with target "/getting-started", inside the Section
labelled "Start Here". -/
theorem getting_started_entry_unique :
    currentConfig.title = "Sizzle Starter" ∧
    currentConfig.socialGithub = "https://github.com/hawkkiller/sizzle_starter" ∧
    (linksOfList currentSidebar).count ("Getting Started", "/getting-started") = 1 ∧
    currentSidebar.head? = some
      (.group "Start Here" false
        [ .link "Introduction" "/introduction",
          .link "Getting Started" "/getting-started" ]) :=
  ⟨rfl, rfl, by decide, rfl⟩

/-- C5: the deploy step's command names exactly the static output directory
`dist` and the project identifier `sizzle-starter-docs`; the step carries the
two secret credentials (API token and account identifier); and a deployment
record is registered if and only if a repository token is supplied — here it
is, so the configured step registers one. -/
theorem deploy_surface_inputs :
    deployStep.command =
      "pages deploy " ++ deployOutputDir ++ " --project-name=" ++ deployProjectName ∧
    deployStep.apiToken = "secrets.CLOUDFLARE_API_TOKEN" ∧
    deployStep.accountId = "secrets.CLOUDFLARE_ACCOUNT_ID" ∧
    deployStep.gitHubToken = some "secrets.GITHUB_TOKEN" ∧
    registersDeployment deployStep = true ∧
    (∀ s : WranglerDeployStep, registersDeployment s = true ↔ s.gitHubToken ≠ none) := by
  refine ⟨by decide, rfl, rfl, rfl, rfl, ?_⟩
  intro s
  simp [registersDeployment, Option.isSome_iff_ne_none]

/-- C1: the job's steps run dependency-install, then static-build, then
artifact-deploy in strict order; the job exits with success exactly when
every step succeeds (a non-zero exit of any stage aborts the run); and in
every run in which the build step fails, the deploy step is never invoked. -/
theorem pipeline_order_and_build_failure_blocks_deploy (o : String → Bool) :
    jobSteps.indexOf "Get Dependencies" < jobSteps.indexOf "Build Astro site" ∧
    jobSteps.indexOf "Build Astro site" < jobSteps.indexOf "Deploy" ∧
    ((runSteps jobSteps o).2 = true ↔ ∀ s ∈ jobSteps, o s = true) ∧
    (o "Build Astro site" = false → "Deploy" ∉ (runSteps jobSteps o).1) := by
  refine ⟨by decide, by decide, ?_, ?_⟩ <;>
  · cases h1 : o "actions/checkout@v4" <;>
    cases h2 : o "Get Dependencies" <;>
    cases h3 : o "Build Astro site" <;>
    cases h4 : o "Deploy" <;>
    simp_all [runSteps, jobSteps]

/-- An outcome in which exactly the build step fails. -/
def buildFailsOutcome : String → Bool := fun s => !(s == "Build Astro site")

/-- C1 witness: in the concrete run where the build step fails and every
other step would succeed, the deploy step is not invoked. -/
theorem pipeline_build_failure_witness :
    buildFailsOutcome "Build Astro site" = false ∧
    "Deploy" ∉ (runSteps jobSteps buildFailsOutcome).1 :=
  ⟨rfl,
   (pipeline_order_and_build_failure_blocks_deploy buildFailsOutcome).2.2.2 rfl⟩

/-- C3: for every document-path set and navigation tree, the build-time
validation accepts exactly when every Link's target resolves to an existing
document path; on success it returns the tree unchanged (no link is silently
omitted); and removing a document referenced by some Link makes validation
fail with a dangling-link ConfigError. -/
theorem navigation_referential_integrity (docPaths : List String)
    (tree : List NavNode) :
    (validateSidebar docPaths tree = .ok tree ↔
      ∀ p ∈ linksOfList tree, p.2 ∈ docPaths) ∧
    (∀ l, validateSidebar docPaths tree = .ok l → l = tree) ∧
    (∀ d ∈ (linksOfList tree).map Prod.snd,
      ∃ t, validateSidebar (docPaths.filter (fun x => x != d)) tree =
        .error (.danglingLink t)) := by
  refine ⟨?_, ?_, ?_⟩
  · rw [validateSidebar]
    cases hf : (linksOfList tree).find? (fun p => decide (p.2 ∉ docPaths)) with
    | none =>
      simp only [true_iff]
      intro p hp
      have := List.find?_eq_none.mp hf p hp
      simpa using this
    | some p =>
      simp only [reduceCtorEq, false_iff, not_forall]
      refine ⟨p, List.mem_of_find?_eq_some hf, ?_⟩
      have := List.find?_some hf
      simpa using this
  · intro l hl
    rw [validateSidebar] at hl
    cases hf : (linksOfList tree).find? (fun p => decide (p.2 ∉ docPaths)) with
    | none => rw [hf] at hl; exact (Except.ok.inj hl).symm
    | some p => rw [hf] at hl; exact absurd hl (by simp)
  · intro d hd
    obtain ⟨p, hp, hpd⟩ := List.mem_map.mp hd
    have hpred : (fun q : String × String =>
        decide (q.2 ∉ docPaths.filter (fun x => x != d))) p = true := by
      simp [List.mem_filter, hpd]
    have hsome : ((linksOfList tree).find? (fun q =>
        decide (q.2 ∉ docPaths.filter (fun x => x != d)))).isSome := by
      rw [List.find?_isSome]
      exact ⟨p, hp, hpred⟩
    obtain ⟨q, hq⟩ := Option.isSome_iff_exists.mp hsome
    refine ⟨q.2, ?_⟩
    rw [validateSidebar, hq]

/-- The document paths referenced by explicit links of the current sidebar. -/
def allDocPaths : List String := ["/introduction", "/getting-started", "/roadmap"]

/-- C3 witness: with the three referenced documents present, the current
sidebar validates to itself, and removing the "/roadmap" document makes
validation fail with a dangling-link ConfigError. -/
theorem navigation_integrity_witness :
    validateSidebar allDocPaths currentSidebar = .ok currentSidebar ∧
    ∃ t, validateSidebar (allDocPaths.filter (fun x => x != "/roadmap"))
      currentSidebar = .error (.danglingLink t) :=
  ⟨(navigation_referential_integrity allDocPaths currentSidebar).1.mpr (by decide),
   (navigation_referential_integrity allDocPaths currentSidebar).2.2 "/roadmap"
     (by decide)⟩

end SizzleDocs
